import Mathlib

/-!
# Verification of the boilr CLI (schema generation & revision tool)

Shallow embedding of the boilr sources:

* `src/schemaTypes.ts` — the zod validator for the abstract database schema
  (`AbstractSchemaSchema`, `ModelSchema`, `FieldSchema`, `ReferenceSchema`,
  `FieldTypeSchema`);
* `src/aiService.ts` — provider/client initialization (`initializeModel`),
  the shared model-call wrapper (`generateSchemaWithPrompt`) with its error
  mapping, and the two operations `generateSchema` / `reviseSchema`;
* `src/configService.ts` — `readConfig` and `runFirstRunWizard`;
* `src/index.ts` — the interactive flow: project-name validation, the
  approval check, the revision-loop step, and the schema pretty-printer
  (`printSchema`).

JavaScript string operations used by the source (`String.prototype.trim`,
`toLowerCase`, `includes`) and JavaScript truthiness are embedded as
executable Lean functions over `List Char` so that every definition reduces
in the kernel.  JSON values are an inductive type; JavaScript objects are
represented as association lists (first occurrence wins on lookup).
-/

namespace Boilr

/-! ## JavaScript string primitives -/

/-- Whitespace recognized by `String.prototype.trim` (ASCII part). -/
def jsWhitespace (c : Char) : Bool :=
  c = ' ' || c = '\t' || c = '\n' || c = '\r' || c = '\x0b' || c = '\x0c'

/-- Drop leading JS whitespace from a character list. -/
def dropLeading : List Char → List Char
  | [] => []
  | c :: rest => if jsWhitespace c then dropLeading rest else c :: rest

/-- Embedding of `String.prototype.trim`. -/
def jsTrim (s : String) : String :=
  ⟨(dropLeading (dropLeading s.data.reverse).reverse)⟩

/-- ASCII lowercasing of one character (what `toLowerCase` does on ASCII). -/
def jsCharToLower (c : Char) : Char :=
  if 'A' ≤ c && c ≤ 'Z' then Char.ofNat (c.toNat + 32) else c

/-- Embedding of `String.prototype.toLowerCase` (ASCII range). -/
def jsToLowerCase (s : String) : String :=
  ⟨s.data.map jsCharToLower⟩

/-- Does the first list start with the second? -/
def listStarts : List Char → List Char → Bool
  | _, [] => true
  | [], _ :: _ => false
  | c :: cs, d :: ds => c = d && listStarts cs ds

/-- Does the first list contain the second as a contiguous run? -/
def listIncludes : List Char → List Char → Bool
  | s, sub =>
    if listStarts s sub then true
    else
      match s with
      | [] => false
      | _ :: rest => listIncludes rest sub

/-- Embedding of `String.prototype.includes`. -/
def jsIncludes (s sub : String) : Bool :=
  listIncludes s.data sub.data

/-- JavaScript truthiness of an optional string (`undefined` and `""` are
falsy); this is the `!apiKey` / `!config.llmProvider` test in the source. -/
def jsFalsyStr : Option String → Bool
  | none => true
  | some s => s = ""

/-! ## JSON values

Model replies are JSON; `zod` validates a parsed JSON value.  Objects are
association lists of key/value pairs. -/

inductive Json where
  | null
  | bool (b : Bool)
  | num (n : Int)
  | str (s : String)
  | arr (elems : List Json)
  | obj (members : List (String × Json))
deriving Repr

/-- Property access on a JS object (first occurrence of the key). -/
def lookupKey : List (String × Json) → String → Option Json
  | [], _ => none
  | (k, v) :: rest, key => if k = key then some v else lookupKey rest key

/-! ## Schema data model (`src/schemaTypes.ts`)

The typed values produced by the zod schemas.  `type` is kept as the string
value of the enumeration (as it is at the TypeScript runtime); the validator
guarantees membership in `fieldTypeNames`. -/

/-- The 13 values of `FieldTypeSchema = z.enum([...])`. -/
def fieldTypeNames : List String :=
  ["serial", "integer", "bigint", "text", "varchar", "boolean", "date",
   "timestamp", "decimal", "float", "json", "jsonb", "uuid"]

/-- `ReferenceSchema`: a foreign-key reference. -/
structure Reference where
  model : String
  field : String
deriving Repr, DecidableEq

/-- `FieldSchema`: one column of a model. -/
structure Field where
  name : String
  type : String
  primaryKey : Bool
  notNull : Bool
  unique : Bool
  default : Option String
  references : Option Reference
deriving Repr, DecidableEq

/-- `ModelSchema`: one table. -/
structure Model where
  name : String
  fields : List Field
deriving Repr, DecidableEq

/-- `AbstractSchemaSchema`: the whole proposed design. -/
structure AbstractSchema where
  models : List Model
deriving Repr, DecidableEq

/-! ## The zod validator, embedded

`z.object` requires a JSON object and reads the declared keys (extra keys
are stripped); `z.boolean().optional().default(false)` maps an absent key to
`false`, a boolean to itself, and rejects anything else; `.optional()` on a
string or object maps an absent key to "absent" and rejects non-conforming
present values; `z.array(...).min(1)` requires a JSON array of at least one
conforming element. -/

/-- `z.boolean().optional().default(false)` on one property. -/
def parseOptBool : Option Json → Option Bool
  | none => some false
  | some (.bool b) => some b
  | some _ => none

/-- `z.string().optional()` on one property. -/
def parseOptStr : Option Json → Option (Option String)
  | none => some none
  | some (.str s) => some (some s)
  | some _ => none

/-- `ReferenceSchema.parse`. -/
def parseReference : Json → Option Reference
  | .obj kvs =>
    match lookupKey kvs "model", lookupKey kvs "field" with
    | some (.str m), some (.str f) => some { model := m, field := f }
    | _, _ => none
  | _ => none

/-- `ReferenceSchema.optional()` on one property. -/
def parseOptRef : Option Json → Option (Option Reference)
  | none => some none
  | some j => (parseReference j).map some

/-- `FieldSchema.parse`. -/
def parseField : Json → Option Field
  | .obj kvs =>
    match lookupKey kvs "name", lookupKey kvs "type" with
    | some (.str n), some (.str t) =>
      if fieldTypeNames.contains t then
        match parseOptBool (lookupKey kvs "primaryKey"),
              parseOptBool (lookupKey kvs "notNull"),
              parseOptBool (lookupKey kvs "unique"),
              parseOptStr (lookupKey kvs "default"),
              parseOptRef (lookupKey kvs "references") with
        | some pk, some nn, some uq, some df, some rf =>
            some { name := n, type := t, primaryKey := pk, notNull := nn,
                   unique := uq, default := df, references := rf }
        | _, _, _, _, _ => none
      else none
    | _, _ => none
  | _ => none

/-- Elementwise parsing of `z.array(FieldSchema)`. -/
def parseFields : List Json → Option (List Field)
  | [] => some []
  | j :: rest =>
    match parseField j, parseFields rest with
    | some f, some fs => some (f :: fs)
    | _, _ => none

/-- `ModelSchema.parse` (with the `.min(1)` constraint on `fields`). -/
def parseModel : Json → Option Model
  | .obj kvs =>
    match lookupKey kvs "name", lookupKey kvs "fields" with
    | some (.str n), some (.arr fs) =>
      if fs.length < 1 then none
      else
        match parseFields fs with
        | some flds => some { name := n, fields := flds }
        | none => none
    | _, _ => none
  | _ => none

/-- Elementwise parsing of `z.array(ModelSchema)`. -/
def parseModels : List Json → Option (List Model)
  | [] => some []
  | j :: rest =>
    match parseModel j, parseModels rest with
    | some m, some ms => some (m :: ms)
    | _, _ => none

/-- `AbstractSchemaSchema.parse` (with the `.min(1)` constraint on
`models`): the structural validator applied to every model reply. -/
def parseAbstractSchema : Json → Option AbstractSchema
  | .obj kvs =>
    match lookupKey kvs "models" with
    | some (.arr ms) =>
      if ms.length < 1 then none
      else
        match parseModels ms with
        | some mods => some { models := mods }
        | none => none
    | _ => none
  | _ => none

/-! ## Structural constraints of an abstract schema

Boolean predicates transcribing the constraints the specification lists for
`AbstractSchema` (at least one model; every model a named object with at
least one field; every field a named object whose `type` is one of the 13
enumeration values, whose constraint flags are booleans when present, whose
`default` is a string when present and whose `references` is a reference
object when present). -/

/-- The property is present and is a JSON string. -/
def wfString : Option Json → Bool
  | some (.str _) => true
  | _ => false

/-- The property is present and is one of the 13 field-type names. -/
def wfFieldType : Option Json → Bool
  | some (.str t) => fieldTypeNames.contains t
  | _ => false

/-- The property is absent or a JSON boolean. -/
def wfOptBool : Option Json → Bool
  | none => true
  | some (.bool _) => true
  | some _ => false

/-- The property is absent or a JSON string. -/
def wfOptStr : Option Json → Bool
  | none => true
  | some (.str _) => true
  | some _ => false

/-- A structurally valid reference object. -/
def wfReference : Json → Bool
  | .obj kvs => wfString (lookupKey kvs "model") && wfString (lookupKey kvs "field")
  | _ => false

/-- The property is absent or a structurally valid reference object. -/
def wfOptRef : Option Json → Bool
  | none => true
  | some j => wfReference j

/-- A structurally valid field object. -/
def wfField : Json → Bool
  | .obj kvs =>
    wfString (lookupKey kvs "name") && wfFieldType (lookupKey kvs "type") &&
    wfOptBool (lookupKey kvs "primaryKey") && wfOptBool (lookupKey kvs "notNull") &&
    wfOptBool (lookupKey kvs "unique") && wfOptStr (lookupKey kvs "default") &&
    wfOptRef (lookupKey kvs "references")
  | _ => false

/-- A structurally valid model object: named, with at least one valid field. -/
def wfModel : Json → Bool
  | .obj kvs =>
    wfString (lookupKey kvs "name") &&
    (match lookupKey kvs "fields" with
     | some (.arr fs) => decide (1 ≤ fs.length) && fs.all wfField
     | _ => false)
  | _ => false

/-- A structurally valid abstract schema: at least one valid model. -/
def wfAbstractSchema : Json → Bool
  | .obj kvs =>
    match lookupKey kvs "models" with
    | some (.arr ms) => decide (1 ≤ ms.length) && ms.all wfModel
    | _ => false
  | _ => false

/-! ## Equivalence of the typed value with the JSON input -/

/-- Value of a boolean property under the default-to-`false` rule. -/
def boolAttr : Option Json → Bool
  | some (.bool b) => b
  | _ => false

/-- Value of an optional string property. -/
def strAttr : Option Json → Option String
  | some (.str s) => some s
  | _ => none

/-- The typed reference (when present) reads back the JSON property. -/
def refEquiv : Option Json → Option Reference → Prop
  | none, r => r = none
  | some j, r =>
    ∃ kvs, j = .obj kvs ∧
      ∃ ref, r = some ref ∧
        lookupKey kvs "model" = some (.str ref.model) ∧
        lookupKey kvs "field" = some (.str ref.field)

/-- The typed field reads back exactly the JSON field object's declared
properties (flags defaulting to `false`, optional attributes to absent). -/
def fieldEquiv (j : Json) (f : Field) : Prop :=
  ∃ kvs, j = .obj kvs ∧
    lookupKey kvs "name" = some (.str f.name) ∧
    lookupKey kvs "type" = some (.str f.type) ∧
    f.primaryKey = boolAttr (lookupKey kvs "primaryKey") ∧
    f.notNull = boolAttr (lookupKey kvs "notNull") ∧
    f.unique = boolAttr (lookupKey kvs "unique") ∧
    f.default = strAttr (lookupKey kvs "default") ∧
    refEquiv (lookupKey kvs "references") f.references

/-- The typed model reads back the JSON model object. -/
def modelEquiv (j : Json) (m : Model) : Prop :=
  ∃ kvs, j = .obj kvs ∧
    lookupKey kvs "name" = some (.str m.name) ∧
    ∃ fs, lookupKey kvs "fields" = some (.arr fs) ∧
      List.Forall₂ fieldEquiv fs m.fields

/-- The typed schema reads back the JSON value it was validated from. -/
def schemaEquiv (j : Json) (s : AbstractSchema) : Prop :=
  ∃ kvs, j = .obj kvs ∧
    ∃ ms, lookupKey kvs "models" = some (.arr ms) ∧
      List.Forall₂ modelEquiv ms s.models

/-! ## Validator correctness lemmas -/

theorem parseOptBool_isSome (o : Option Json) : (parseOptBool o).isSome = wfOptBool o := by
  rcases o with _ | j
  · rfl
  · cases j <;> rfl

theorem parseOptStr_isSome (o : Option Json) : (parseOptStr o).isSome = wfOptStr o := by
  rcases o with _ | j
  · rfl
  · cases j <;> rfl

theorem parseReference_isSome (j : Json) : (parseReference j).isSome = wfReference j := by
  cases j with
  | obj kvs =>
    simp only [parseReference, wfReference]
    rcases hm : lookupKey kvs "model" with _ | jm
    all_goals try (cases jm)
    all_goals rcases hf : lookupKey kvs "field" with _ | jf
    all_goals try (cases jf)
    all_goals simp [wfString]
  | null => rfl
  | bool b => rfl
  | num n => rfl
  | str s => rfl
  | arr es => rfl

theorem parseOptRef_isSome (o : Option Json) : (parseOptRef o).isSome = wfOptRef o := by
  rcases o with _ | j
  · rfl
  · simp [parseOptRef, wfOptRef, ← parseReference_isSome j]

theorem parseField_isSome (j : Json) : (parseField j).isSome = wfField j := by
  cases j with
  | obj kvs =>
    simp only [parseField, wfField]
    rcases hn : lookupKey kvs "name" with _ | jn
    all_goals try (cases jn)
    all_goals rcases ht : lookupKey kvs "type" with _ | jt
    all_goals try (cases jt)
    all_goals try (simp [wfString, wfFieldType]; done)
    rename_i n t
    by_cases hmem : t ∈ fieldTypeNames
    · rcases hp : parseOptBool (lookupKey kvs "primaryKey") with _ | pk <;>
        rcases hq : parseOptBool (lookupKey kvs "notNull") with _ | nn <;>
          rcases hu : parseOptBool (lookupKey kvs "unique") with _ | uq <;>
            rcases hd : parseOptStr (lookupKey kvs "default") with _ | df <;>
              rcases hv : parseOptRef (lookupKey kvs "references") with _ | rv <;>
                simp [wfString, wfFieldType, hmem,
                      ← parseOptBool_isSome, ← parseOptStr_isSome, ← parseOptRef_isSome,
                      hp, hq, hu, hd, hv]
    · simp [wfString, wfFieldType, hmem]
  | null => rfl
  | bool b => rfl
  | num n => rfl
  | str s => rfl
  | arr es => rfl

theorem parseFields_isSome : ∀ l : List Json, (parseFields l).isSome = l.all wfField
  | [] => rfl
  | j :: rest => by
    simp only [parseFields, List.all_cons]
    have h1 := parseField_isSome j
    have h2 := parseFields_isSome rest
    rcases hf : parseField j with _ | f <;> rw [hf] at h1 <;>
      rcases hr : parseFields rest with _ | fs <;> rw [hr] at h2 <;>
        simp [← h1, ← h2]

theorem parseModel_isSome (j : Json) : (parseModel j).isSome = wfModel j := by
  cases j with
  | obj kvs =>
    simp only [parseModel, wfModel]
    rcases hn : lookupKey kvs "name" with _ | jn
    all_goals try (cases jn)
    all_goals rcases hf : lookupKey kvs "fields" with _ | jf
    all_goals try (cases jf)
    all_goals try (simp [wfString]; done)
    rename_i n fs
    have h2 := parseFields_isSome fs
    by_cases hlen : fs.length < 1
    · simp [wfString, hlen, Nat.lt_one_iff.mp hlen]
    · have hlen' : 1 ≤ fs.length := Nat.le_of_not_lt hlen
      rcases hp : parseFields fs with _ | flds <;> rw [hp] at h2 <;>
        simp [wfString, hlen, hlen', ← h2, hp]
  | null => rfl
  | bool b => rfl
  | num n => rfl
  | str s => rfl
  | arr es => rfl

theorem parseModels_isSome : ∀ l : List Json, (parseModels l).isSome = l.all wfModel
  | [] => rfl
  | j :: rest => by
    simp only [parseModels, List.all_cons]
    have h1 := parseModel_isSome j
    have h2 := parseModels_isSome rest
    rcases hm : parseModel j with _ | m <;> rw [hm] at h1 <;>
      rcases hr : parseModels rest with _ | ms <;> rw [hr] at h2 <;>
        simp [← h1, ← h2]

theorem parseAbstractSchema_isSome (j : Json) :
    (parseAbstractSchema j).isSome = wfAbstractSchema j := by
  cases j with
  | obj kvs =>
    simp only [parseAbstractSchema, wfAbstractSchema]
    rcases hm : lookupKey kvs "models" with _ | jm
    all_goals try (cases jm)
    all_goals try (simp; done)
    rename_i ms
    have h2 := parseModels_isSome ms
    by_cases hlen : ms.length < 1
    · simp [hlen, Nat.lt_one_iff.mp hlen]
    · have hlen' : 1 ≤ ms.length := Nat.le_of_not_lt hlen
      rcases hp : parseModels ms with _ | mods <;> rw [hp] at h2 <;>
        simp [hlen, hlen', ← h2, hp]
  | null => rfl
  | bool b => rfl
  | num n => rfl
  | str s => rfl
  | arr es => rfl

/-! ## The typed value reads back the JSON input -/

theorem parseOptBool_eq {o : Option Json} {b : Bool} (h : parseOptBool o = some b) :
    b = boolAttr o := by
  rcases o with _ | j
  · simp [parseOptBool] at h; simp [boolAttr, h]
  · cases j <;> simp [parseOptBool] at h <;> simp [boolAttr, h]

theorem parseOptStr_eq {o : Option Json} {v : Option String} (h : parseOptStr o = some v) :
    v = strAttr o := by
  rcases o with _ | j
  · simp [parseOptStr] at h; simp [strAttr, h]
  · cases j <;> simp [parseOptStr] at h <;> simp [strAttr, h]

theorem parseReference_eq {j : Json} {ref : Reference} (h : parseReference j = some ref) :
    ∃ kvs, j = .obj kvs ∧
      lookupKey kvs "model" = some (.str ref.model) ∧
      lookupKey kvs "field" = some (.str ref.field) := by
  cases j with
  | obj kvs =>
    refine ⟨kvs, rfl, ?_⟩
    simp only [parseReference] at h
    rcases hm : lookupKey kvs "model" with _ | jm <;> rw [hm] at h
    · simp at h
    cases jm <;> try simp at h
    rcases hf : lookupKey kvs "field" with _ | jf <;> rw [hf] at h
    · simp at h
    cases jf <;> try simp at h
    subst h
    exact ⟨rfl, rfl⟩
  | null => simp [parseReference] at h
  | bool b => simp [parseReference] at h
  | num n => simp [parseReference] at h
  | str s => simp [parseReference] at h
  | arr es => simp [parseReference] at h

theorem parseOptRef_eq {o : Option Json} {r : Option Reference} (h : parseOptRef o = some r) :
    refEquiv o r := by
  rcases o with _ | j
  · simp [parseOptRef] at h; simp [refEquiv, h]
  · simp only [parseOptRef, Option.map_eq_some'] at h
    obtain ⟨ref, href, rfl⟩ := h
    obtain ⟨kvs, rfl, hm, hf⟩ := parseReference_eq href
    exact ⟨kvs, rfl, ref, rfl, hm, hf⟩

theorem parseField_equiv {j : Json} {f : Field} (h : parseField j = some f) :
    fieldEquiv j f := by
  cases j with
  | obj kvs =>
    simp only [parseField] at h
    rcases hn : lookupKey kvs "name" with _ | jn <;> rw [hn] at h
    · simp at h
    cases jn <;> try simp at h
    rcases ht : lookupKey kvs "type" with _ | jt <;> rw [ht] at h
    · simp at h
    cases jt <;> try simp at h
    rename_i n t
    obtain ⟨hmem, h⟩ := h
    rcases hp : parseOptBool (lookupKey kvs "primaryKey") with _ | pk <;> rw [hp] at h <;>
      rcases hq : parseOptBool (lookupKey kvs "notNull") with _ | nn <;> rw [hq] at h <;>
        rcases hu : parseOptBool (lookupKey kvs "unique") with _ | uq <;> rw [hu] at h <;>
          rcases hd : parseOptStr (lookupKey kvs "default") with _ | df <;> rw [hd] at h <;>
            rcases hv : parseOptRef (lookupKey kvs "references") with _ | rv <;> rw [hv] at h <;>
              simp at h
    subst h
    exact ⟨kvs, rfl, hn, ht, parseOptBool_eq hp, parseOptBool_eq hq,
           parseOptBool_eq hu, parseOptStr_eq hd, parseOptRef_eq hv⟩
  | null => simp [parseField] at h
  | bool b => simp [parseField] at h
  | num n => simp [parseField] at h
  | str s => simp [parseField] at h
  | arr es => simp [parseField] at h

theorem parseFields_equiv :
    ∀ {l : List Json} {fs : List Field}, parseFields l = some fs →
      List.Forall₂ fieldEquiv l fs := by
  intro l
  induction l with
  | nil => intro fs h; simp [parseFields] at h; simp [← h]
  | cons j rest ih =>
    intro fs h
    simp only [parseFields] at h
    rcases hf : parseField j with _ | f <;> rw [hf] at h <;> try simp at h
    rcases hr : parseFields rest with _ | gs <;> rw [hr] at h <;> try simp at h
    rw [← h]
    exact List.Forall₂.cons (parseField_equiv hf) (ih hr)

theorem parseModel_equiv {j : Json} {m : Model} (h : parseModel j = some m) :
    modelEquiv j m := by
  cases j with
  | obj kvs =>
    simp only [parseModel] at h
    rcases hn : lookupKey kvs "name" with _ | jn <;> rw [hn] at h
    · simp at h
    cases jn <;> try simp at h
    rcases hf : lookupKey kvs "fields" with _ | jf <;> rw [hf] at h
    · simp at h
    cases jf <;> try simp at h
    rename_i n fs
    obtain ⟨hne, h⟩ := h
    rcases hp : parseFields fs with _ | flds <;> rw [hp] at h <;> simp at h
    subst h
    exact ⟨kvs, rfl, hn, fs, hf, parseFields_equiv hp⟩
  | null => simp [parseModel] at h
  | bool b => simp [parseModel] at h
  | num n => simp [parseModel] at h
  | str s => simp [parseModel] at h
  | arr es => simp [parseModel] at h

theorem parseModels_equiv :
    ∀ {l : List Json} {ms : List Model}, parseModels l = some ms →
      List.Forall₂ modelEquiv l ms := by
  intro l
  induction l with
  | nil => intro ms h; simp [parseModels] at h; simp [← h]
  | cons j rest ih =>
    intro ms h
    simp only [parseModels] at h
    rcases hm : parseModel j with _ | m <;> rw [hm] at h <;> try simp at h
    rcases hr : parseModels rest with _ | ns <;> rw [hr] at h <;> try simp at h
    rw [← h]
    exact List.Forall₂.cons (parseModel_equiv hm) (ih hr)

theorem parseAbstractSchema_equiv {j : Json} {s : AbstractSchema}
    (h : parseAbstractSchema j = some s) : schemaEquiv j s := by
  cases j with
  | obj kvs =>
    simp only [parseAbstractSchema] at h
    rcases hm : lookupKey kvs "models" with _ | jm <;> rw [hm] at h
    · simp at h
    cases jm <;> try simp at h
    rename_i ms
    obtain ⟨hne, h⟩ := h
    rcases hp : parseModels ms with _ | mods <;> rw [hp] at h <;> simp at h
    subst h
    exact ⟨kvs, rfl, ms, hm, parseModels_equiv hp⟩
  | null => simp [parseAbstractSchema] at h
  | bool b => simp [parseAbstractSchema] at h
  | num n => simp [parseAbstractSchema] at h
  | str s2 => simp [parseAbstractSchema] at h
  | arr es => simp [parseAbstractSchema] at h

/-! ## Claim C1 -/

/-- A concrete structurally valid model reply. -/
def exJson : Json :=
  .obj [("models", .arr [
    .obj [("name", .str "users"),
          ("fields", .arr [
            .obj [("name", .str "id"), ("type", .str "serial"),
                  ("primaryKey", .bool true)]])]])]

/-- The typed value the validator returns for `exJson`. -/
def exSchema : AbstractSchema :=
  { models := [{ name := "users",
                 fields := [{ name := "id", type := "serial", primaryKey := true,
                              notNull := false, unique := false,
                              default := none, references := none }] }] }

/-- C1: the validator (`AbstractSchemaSchema` parsing) accepts a JSON value
exactly when it satisfies the structural constraints of `AbstractSchema`
(at least one model, every model with at least one field, every field typed
by one of the 13 enumeration values), and on acceptance the typed value it
returns is equivalent to the input; every value violating a constraint
(empty `models`, empty `fields`, out-of-enumeration `type`) is rejected. -/
theorem C1_validator_correct (j : Json) :
    ((parseAbstractSchema j).isSome = wfAbstractSchema j) ∧
    (∀ s, parseAbstractSchema j = some s → schemaEquiv j s) :=
  ⟨parseAbstractSchema_isSome j, fun _ h => parseAbstractSchema_equiv h⟩

/-- Witness for C1 at the concrete reply `exJson`. -/
theorem C1_validator_correct_witness :
    (parseAbstractSchema exJson).isSome = wfAbstractSchema exJson ∧
    schemaEquiv exJson exSchema :=
  ⟨(C1_validator_correct exJson).1,
   (C1_validator_correct exJson).2 exSchema (by decide)⟩

/-! ## Configuration (`src/configService.ts`) -/

/-- The `apiKeys` mapping: one optional credential per provider. -/
structure ApiKeys where
  gemini : Option String
  openai : Option String
  anthropic : Option String
deriving Repr, DecidableEq

/-- A configuration as consumed by the adapter.  `llmProvider` is kept as a
string: the YAML file's content is cast, not validated, so any string can
flow here (the adapter's `default` branch handles unrecognized ones). -/
structure Config where
  llmProvider : String
  apiKeys : ApiKeys
deriving Repr, DecidableEq

/-- The provider names of the `Config.llmProvider` union type (also the
wizard's fixed choice list). -/
def recognizedProviders : List String := ["gemini", "openai", "anthropic"]

/-- The result of `yaml.parse` on the config file, before the truthiness
checks: either property may be missing. -/
structure RawConfig where
  llmProvider : Option String
  apiKeys : Option ApiKeys
deriving Repr, DecidableEq

/-- `ConfigService.getConfigPath`. -/
def getConfigPath (homedir : String) : String :=
  homedir ++ "/.boilr/config.yaml"

/-- `ConfigService.readConfig`: `file` is the parsed content of the config
file when it exists (`none` when `configExists()` is false). -/
def readConfig (homedir : String) (file : Option RawConfig) : Except String RawConfig :=
  match file with
  | none => .error ("Config file not found at " ++ getConfigPath homedir)
  | some config =>
    if jsFalsyStr config.llmProvider || config.apiKeys.isNone then
      .error "Invalid config file structure"
    else .ok config

/-- What the first-run wizard produces: the config it persists via
`writeConfig` and the config it returns (the same object). -/
structure WizardOutcome where
  written : Config
  returned : Config
deriving Repr, DecidableEq

/-- `ConfigService.runFirstRunWizard`, applied to the interactive answers:
the chosen provider and the (unvalidated) credential string.  The config's
`apiKeys` is the computed-key object `{ [provider]: apiKey }`. -/
def runFirstRunWizard (provider apiKey : String) : WizardOutcome :=
  let config : Config :=
    { llmProvider := provider,
      apiKeys := { gemini := if provider = "gemini" then some apiKey else none,
                   openai := if provider = "openai" then some apiKey else none,
                   anthropic := if provider = "anthropic" then some apiKey else none } }
  { written := config, returned := config }

/-! ## Model-call adapter (`src/aiService.ts`) -/

/-- A provider client bound to one model identifier — what `initializeModel`
returns (`google('models/gemini-1.5-pro')` etc.). -/
structure LanguageModel where
  provider : String
  modelId : String
deriving Repr, DecidableEq

def geminiKeyMissingMsg : String :=
  "Gemini API key not found in config. Please run \"boilr config\" to set it up."

def openaiKeyMissingMsg : String :=
  "OpenAI API key not found in config. Please run \"boilr config\" to set it up."

def anthropicKeyMissingMsg : String :=
  "Anthropic API key not found in config. Please run \"boilr config\" to set it up."

/-- `AiService.initializeModel` (run by the constructor): switch on the
provider, require a truthy credential, bind the fixed default model. -/
def initializeModel (config : Config) : Except String LanguageModel :=
  match config.llmProvider with
  | "gemini" =>
    let apiKey := config.apiKeys.gemini
    if jsFalsyStr apiKey then .error geminiKeyMissingMsg
    else .ok { provider := "gemini", modelId := "models/gemini-1.5-pro" }
  | "openai" =>
    let apiKey := config.apiKeys.openai
    if jsFalsyStr apiKey then .error openaiKeyMissingMsg
    else .ok { provider := "openai", modelId := "gpt-5-codex" }
  | "anthropic" =>
    let apiKey := config.apiKeys.anthropic
    if jsFalsyStr apiKey then .error anthropicKeyMissingMsg
    else .ok { provider := "anthropic", modelId := "claude-3-5-sonnet-20241022" }
  | other => .error ("Unsupported LLM provider: " ++ other)

/-- The transport to the hosted model: a supply of exchange results (for
each exchange, `generateObject` either obtains a raw JSON reply or throws
with a message), and a cursor counting the exchanges performed so far. -/
structure Transport where
  responses : Nat → Except String Json
  cursor : Nat

/-- One request/response exchange. -/
def doExchange (t : Transport) : Except String Json × Transport :=
  (t.responses t.cursor, { t with cursor := t.cursor + 1 })

/-- The message of the error the `ai` SDK's `generateObject` throws when the
reply does not validate against the zod schema (third-party library
behavior; its exact text is opaque to the source, which only wraps it). -/
def noObjectMsg : String :=
  "No object generated: response did not match schema."

/-- The auth-failure rewrite: invalid API key, re-run setup. -/
def invalidKeyMsg (llmProvider : String) : String :=
  "AI call failed. Your API key for " ++ llmProvider ++
    " seems to be invalid. Please run 'boilr config' to update it."

/-- The rate-limit rewrite: try again in a moment. -/
def rateLimitedMsg : String :=
  "AI call failed due to rate limiting. Please try again in a moment."

/-- The catch block of `generateSchemaWithPrompt`: rewrite 401/Unauthorized
and 429/rate-limit errors, wrap everything else with the operation label. -/
def mapCallError (llmProvider errorContext msg : String) : String :=
  if jsIncludes msg "401" || jsIncludes msg "Unauthorized" then
    invalidKeyMsg llmProvider
  else if jsIncludes msg "429" || jsIncludes msg "rate limit" then
    rateLimitedMsg
  else
    "Failed to " ++ errorContext ++ ": " ++ msg

/-- `AiService.generateSchemaWithPrompt`: one `generateObject` exchange,
validation of the reply against `AbstractSchemaSchema`, and the error
mapping above.  The `systemPrompt`/`userPrompt` arguments are the request
payload; the returned transport records the exchange as performed. -/
def generateSchemaWithPrompt (config : Config) (systemPrompt userPrompt errorContext : String)
    (t : Transport) : Except String AbstractSchema × Transport :=
  let (result, t') := doExchange t
  match result with
  | .ok reply =>
    match parseAbstractSchema reply with
    | some s => (.ok s, t')
    | none => (.error (mapCallError config.llmProvider errorContext noObjectMsg), t')
  | .error msg => (.error (mapCallError config.llmProvider errorContext msg), t')

/-- `AiService.getGenerateSystemPrompt` (fixed persona text; abbreviated
constant — no claim depends on its content, only on it being fixed). -/
def getGenerateSystemPrompt : String :=
  "You are a senior database architect with expertise in designing scalable, normalized database schemas.\n\nYour task is to analyze a user's app idea and propose a clean, well-structured database schema."

/-- `AiService.getReviseSystemPrompt` (fixed revision-persona text). -/
def getReviseSystemPrompt : String :=
  "You are a senior database architect with expertise in designing scalable, normalized database schemas.\n\nYour task is to revise an existing database schema based on user feedback while maintaining schema integrity and best practices."

/-- The user prompt of `generateSchema`: the literal idea in quotes. -/
def generateUserPrompt (idea : String) : String :=
  "Based on this app idea, generate a complete database schema:\n\n\"" ++ idea ++
    "\"\n\nProvide a schema with all necessary models, fields, and relationships."

/-! ### `JSON.stringify(schema, null, 2)` -/

/-- Lowercase hex digit. -/
def hexDigit (n : Nat) : Char :=
  "0123456789abcdef".data.getD n '0'

/-- JSON escaping of one character. -/
def jsonEscapeChar (c : Char) : String :=
  if c = '"' then "\\\""
  else if c = '\\' then "\\\\"
  else if c = '\n' then "\\n"
  else if c = '\r' then "\\r"
  else if c = '\t' then "\\t"
  else if c = '\x08' then "\\b"
  else if c = '\x0c' then "\\f"
  else if c.toNat < 32 then
    "\\u00" ++ String.singleton (hexDigit (c.toNat / 16)) ++ String.singleton (hexDigit (c.toNat % 16))
  else String.singleton c

/-- A JSON string literal. -/
def jsonQuote (s : String) : String :=
  "\"" ++ String.join (s.data.map jsonEscapeChar) ++ "\""

def jsonBool : Bool → String
  | true => "true"
  | false => "false"

/-- Render an object whose entry values are already rendered, at indent
`ind`, in the 2-space style of `JSON.stringify(·, null, 2)`. -/
def renderObj (ind : String) (entries : List (String × String)) : String :=
  match entries with
  | [] => "\x7b\x7d"
  | _ =>
    "\x7b\n" ++
      String.intercalate ",\n"
        (entries.map (fun e => ind ++ "  " ++ jsonQuote e.1 ++ ": " ++ e.2)) ++
      "\n" ++ ind ++ "\x7d"

/-- Render an array of already-rendered elements at indent `ind`. -/
def renderArr (ind : String) (elems : List String) : String :=
  match elems with
  | [] => "[]"
  | _ =>
    "[\n" ++ String.intercalate ",\n" (elems.map (fun e => ind ++ "  " ++ e)) ++
      "\n" ++ ind ++ "]"

def stringifyRef (ind : String) (r : Reference) : String :=
  renderObj ind [("model", jsonQuote r.model), ("field", jsonQuote r.field)]

def stringifyField (ind : String) (f : Field) : String :=
  renderObj ind
    ([("name", jsonQuote f.name), ("type", jsonQuote f.type),
      ("primaryKey", jsonBool f.primaryKey), ("notNull", jsonBool f.notNull),
      ("unique", jsonBool f.unique)] ++
     (match f.default with
      | some d => [("default", jsonQuote d)]
      | none => []) ++
     (match f.references with
      | some r => [("references", stringifyRef (ind ++ "  ") r)]
      | none => []))

def stringifyModel (ind : String) (m : Model) : String :=
  renderObj ind
    [("name", jsonQuote m.name),
     ("fields", renderArr (ind ++ "  ") (m.fields.map (fun f => stringifyField (ind ++ "    ") f)))]

/-- `JSON.stringify(schema, null, 2)`: the readable serialization embedded
in the revise prompt. -/
def stringifySchema (s : AbstractSchema) : String :=
  renderObj "" [("models", renderArr "  " (s.models.map (fun m => stringifyModel "    " m)))]

/-- The user prompt of `reviseSchema`: the serialized current schema in a
fenced block, followed by the literal feedback text in quotes. -/
def reviseUserPrompt (schema : AbstractSchema) (request : String) : String :=
  "Here is the current database schema:\n\n```json\n" ++ stringifySchema schema ++
    "\n```\n\nThe user has requested the following changes:\n\n\"" ++ request ++
    "\"\n\nPlease revise the schema to incorporate these changes. Return the complete revised schema with all modifications applied."

/-- `AiService.generateSchema`. -/
def generateSchema (config : Config) (idea : String) (t : Transport) :
    Except String AbstractSchema × Transport :=
  generateSchemaWithPrompt config getGenerateSystemPrompt (generateUserPrompt idea)
    "generate schema" t

/-- `AiService.reviseSchema`. -/
def reviseSchema (config : Config) (schema : AbstractSchema) (request : String)
    (t : Transport) : Except String AbstractSchema × Transport :=
  generateSchemaWithPrompt config getReviseSystemPrompt (reviseUserPrompt schema request)
    "revise schema" t

/-! ## Interactive flow (`src/index.ts`) -/

/-- The fixed approval phrases of the revision loop. -/
def approvalPhrases : List String := ["looks good", "yes", "y", "approve", "ok"]

/-- The approval check of `runMainFlow`:
`response = answer.trim().toLowerCase()` compared against the five fixed
phrases. -/
def isApproval (input : String) : Bool :=
  let response := jsToLowerCase (jsTrim input)
  response = "looks good" || response = "yes" || response = "y" ||
    response = "approve" || response = "ok"

/-- What one pass of the revision loop decides to do with the raw feedback
string. -/
inductive LoopAction where
  | approved
  | revise (schema : AbstractSchema) (feedback : String)
deriving Repr, DecidableEq

/-- One pass of the `while (!approved)` loop body: approve, or call
`reviseSchema` with the current schema and the raw (untrimmed) response. -/
def loopStep (schema : AbstractSchema) (response : String) : LoopAction :=
  if isApproval response then .approved else .revise schema response

/-- The character class of the project-name pattern `/^[a-z0-9-_]+$/i`. -/
def projectNameChar (c : Char) : Bool :=
  c.isAlphanum || c = '-' || c = '_'

/-- The `validate` callback of the project-name prompt: `none` accepts,
`some msg` re-prompts with the message. -/
def validateProjectName (input : String) : Option String :=
  if jsTrim input = "" then some "Project name cannot be empty"
  else if !((jsTrim input).data.all projectNameChar) then
    some "Project name can only contain letters, numbers, hyphens, and underscores"
  else none

/-- The project-name prompt applied to a stream of user inputs: rejected
inputs re-prompt (move to the next input); the first accepted input is
returned trimmed (`projectAnswer.projectName.trim()`). -/
def collectProjectName : List String → Option String
  | [] => none
  | input :: rest =>
    match validateProjectName input with
    | none => some (jsTrim input)
    | some _ => collectProjectName rest

/-- The constraint annotations `printSchema` builds for one field, in
source order (`primary_key`, `not_null`, `unique`, default literal,
references target); `default` and `references` are pushed only when
truthy. -/
def fieldConstraints (f : Field) : List String :=
  (if f.primaryKey then ["primary_key"] else []) ++
  (if f.notNull then ["not_null"] else []) ++
  (if f.unique then ["unique"] else []) ++
  (match f.default with
   | some d => if d = "" then [] else ["default: '" ++ d ++ "'"]
   | none => []) ++
  (match f.references with
   | some r => ["references: " ++ r.model ++ "." ++ r.field]
   | none => [])

/-- The printed line for one field. -/
def fieldLine (f : Field) : String :=
  let constraints := fieldConstraints f
  let constraintsStr :=
    if constraints.length > 0 then " (" ++ String.intercalate ", " constraints ++ ")"
    else ""
  "  - " ++ f.name ++ ": " ++ f.type ++ constraintsStr

/-! ## Claims C2–C4 -/

/-- A transport whose every exchange throws with message `msg`. -/
def errTransport (msg : String) : Transport :=
  { responses := fun _ => .error msg, cursor := 0 }

/-- A transport whose every exchange yields the raw reply `j`. -/
def okTransport (j : Json) : Transport :=
  { responses := fun _ => .ok j, cursor := 0 }

/-- A config selecting OpenAI with a non-empty credential. -/
def exConfig : Config :=
  { llmProvider := "openai",
    apiKeys := { gemini := none, openai := some "sk-test", anthropic := none } }

/-- C2: each operation performs exactly one exchange (the cursor advances by
exactly one, no retry), and an error thrown by the underlying call is
re-raised: 401/Unauthorized as the invalid-API-key message for the
configured provider, otherwise 429/rate-limit as the rate-limited message,
and anything else wrapped with the operation label ("generate schema" /
"revise schema") and the original message. -/
theorem C2_error_mapping (config : Config) (idea : String) (schema : AbstractSchema)
    (request : String) (t : Transport) :
    ((generateSchema config idea t).2.cursor = t.cursor + 1) ∧
    ((reviseSchema config schema request t).2.cursor = t.cursor + 1) ∧
    (∀ msg, t.responses t.cursor = .error msg →
      (((jsIncludes msg "401" || jsIncludes msg "Unauthorized") = true →
        (generateSchema config idea t).1 = .error (invalidKeyMsg config.llmProvider) ∧
        (reviseSchema config schema request t).1 = .error (invalidKeyMsg config.llmProvider)) ∧
       ((jsIncludes msg "401" || jsIncludes msg "Unauthorized") = false →
        (jsIncludes msg "429" || jsIncludes msg "rate limit") = true →
        (generateSchema config idea t).1 = .error rateLimitedMsg ∧
        (reviseSchema config schema request t).1 = .error rateLimitedMsg) ∧
       ((jsIncludes msg "401" || jsIncludes msg "Unauthorized") = false →
        (jsIncludes msg "429" || jsIncludes msg "rate limit") = false →
        (generateSchema config idea t).1 = .error ("Failed to generate schema: " ++ msg) ∧
        (reviseSchema config schema request t).1 = .error ("Failed to revise schema: " ++ msg)))) := by
  refine ⟨?_, ?_, fun msg hmsg => ⟨fun h401 => ?_, fun h401 h429 => ?_, fun h401 h429 => ?_⟩⟩
  · simp only [generateSchema, generateSchemaWithPrompt, doExchange]
    rcases t.responses t.cursor with msg | reply
    · rfl
    · rcases hp : parseAbstractSchema reply with _ | s <;> simp [hp]
  · simp only [reviseSchema, generateSchemaWithPrompt, doExchange]
    rcases t.responses t.cursor with msg | reply
    · rfl
    · rcases hp : parseAbstractSchema reply with _ | s <;> simp [hp]
  · constructor <;>
      simp [generateSchema, reviseSchema, generateSchemaWithPrompt, doExchange, hmsg,
            mapCallError, h401]
  · constructor <;>
      simp [generateSchema, reviseSchema, generateSchemaWithPrompt, doExchange, hmsg,
            mapCallError, h401, h429]
  · constructor <;>
      simp [generateSchema, reviseSchema, generateSchemaWithPrompt, doExchange, hmsg,
            mapCallError, h401, h429]

/-- Witness for C2: a 401-shaped failure on both operations with a concrete
config, and the cursor advancing from 0 to 1. -/
theorem C2_error_mapping_witness :
    (generateSchema exConfig "an idea" (errTransport "HTTP 401")).2.cursor = 0 + 1 ∧
    (generateSchema exConfig "an idea" (errTransport "HTTP 401")).1 =
      .error (invalidKeyMsg "openai") ∧
    (reviseSchema exConfig exSchema "feedback" (errTransport "HTTP 401")).1 =
      .error (invalidKeyMsg "openai") := by
  have h := C2_error_mapping exConfig "an idea" exSchema "feedback" (errTransport "HTTP 401")
  have h401 := (h.2.2 "HTTP 401" rfl).1 (by decide)
  exact ⟨h.1, h401.1, h401.2⟩

/-- C3: feedback is approval exactly when its trimmed, lowercased form is
one of the five fixed phrases; " Yes ", "YES", "y", "OK" are approvals and
"Looks okay" is not. -/
theorem C3_approval_phrases :
    (∀ s : String, isApproval s = true ↔ jsToLowerCase (jsTrim s) ∈ approvalPhrases) ∧
    isApproval " Yes " = true ∧ isApproval "YES" = true ∧ isApproval "y" = true ∧
    isApproval "OK" = true ∧ isApproval "Looks okay" = false := by
  refine ⟨fun s => ?_, by decide, by decide, by decide, by decide, by decide⟩
  simp [isApproval, approvalPhrases]
  tauto

/-- C4: for the selected provider, a missing credential makes the adapter
constructor fail with that provider's re-run-setup message; a present
non-empty credential makes it succeed, bound to the fixed default model
identifier of the provider. -/
theorem C4_adapter_credentials (config : Config) :
    (config.llmProvider = "gemini" →
      (config.apiKeys.gemini = none → initializeModel config = .error geminiKeyMissingMsg) ∧
      (∀ k, config.apiKeys.gemini = some k → k ≠ "" →
        initializeModel config = .ok { provider := "gemini", modelId := "models/gemini-1.5-pro" })) ∧
    (config.llmProvider = "openai" →
      (config.apiKeys.openai = none → initializeModel config = .error openaiKeyMissingMsg) ∧
      (∀ k, config.apiKeys.openai = some k → k ≠ "" →
        initializeModel config = .ok { provider := "openai", modelId := "gpt-5-codex" })) ∧
    (config.llmProvider = "anthropic" →
      (config.apiKeys.anthropic = none → initializeModel config = .error anthropicKeyMissingMsg) ∧
      (∀ k, config.apiKeys.anthropic = some k → k ≠ "" →
        initializeModel config = .ok { provider := "anthropic", modelId := "claude-3-5-sonnet-20241022" })) := by
  obtain ⟨p, keys⟩ := config
  refine ⟨fun hp => ?_, fun hp => ?_, fun hp => ?_⟩ <;>
    subst hp <;>
    refine ⟨fun hnone => ?_, fun k hk hne => ?_⟩ <;>
    simp_all [initializeModel, jsFalsyStr]

/-- Witness for C4: the empty `apiKeys` mapping fails for OpenAI; a present
key succeeds and binds the provider's fixed model. -/
theorem C4_adapter_credentials_witness :
    initializeModel { llmProvider := "openai", apiKeys := ⟨none, none, none⟩ } =
      .error openaiKeyMissingMsg ∧
    initializeModel exConfig =
      .ok { provider := "openai", modelId := "gpt-5-codex" } :=
  ⟨((C4_adapter_credentials { llmProvider := "openai", apiKeys := ⟨none, none, none⟩ }).2.1
      rfl).1 rfl,
   ((C4_adapter_credentials exConfig).2.1 rfl).2 "sk-test" rfl (by decide)⟩

/-! ## Claim C5 -/

/-- A parsed config whose provider string is not one of the recognized
providers but is truthy, with the credential map present. -/
def mistralRaw : RawConfig :=
  { llmProvider := some "mistral", apiKeys := some ⟨none, none, none⟩ }

/-- Counterexample to C5: `readConfig` does not check the provider value
against the recognized set — a parsed structure whose provider is the
unrecognized (but non-empty) string "mistral" is returned successfully,
while the claim requires failure for a provider that is "not recognized". -/
theorem C5_counterexample :
    readConfig "/home/u" (some mistralRaw) = .ok mistralRaw ∧
    mistralRaw.llmProvider = some "mistral" ∧
    "mistral" ∉ recognizedProviders := by
  refine ⟨rfl, rfl, by decide⟩

/-- C5 (amended): `readConfig` fails exactly when the file is absent at the
fixed path, or the parsed structure's provider field is missing or empty
(falsy), or its credential map is missing; the provider value is not
checked against the recognized provider set, and in every other case the
parsed config is returned unchanged. -/
theorem C5_readConfig_failure_conditions (homedir : String) (file : Option RawConfig) :
    (file = none →
      readConfig homedir file = .error ("Config file not found at " ++ getConfigPath homedir)) ∧
    (∀ cfg, file = some cfg →
      ((jsFalsyStr cfg.llmProvider || cfg.apiKeys.isNone) = true →
        readConfig homedir file = .error "Invalid config file structure") ∧
      ((jsFalsyStr cfg.llmProvider || cfg.apiKeys.isNone) = false →
        readConfig homedir file = .ok cfg)) := by
  refine ⟨fun hf => ?_, fun cfg hf => ⟨fun hbad => ?_, fun hok => ?_⟩⟩
  · subst hf; rfl
  · subst hf; simp [readConfig, hbad]
  · subst hf; simp [readConfig, hok]

/-- Witness for C5 (amended): a missing file, a config missing its
credential map, and a well-formed config. -/
theorem C5_readConfig_failure_conditions_witness :
    readConfig "/home/u" none = .error ("Config file not found at " ++ getConfigPath "/home/u") ∧
    readConfig "/home/u" (some { llmProvider := some "openai", apiKeys := none }) =
      .error "Invalid config file structure" ∧
    readConfig "/home/u" (some mistralRaw) = .ok mistralRaw := by
  refine ⟨(C5_readConfig_failure_conditions "/home/u" none).1 rfl,
    (((C5_readConfig_failure_conditions "/home/u"
        (some { llmProvider := some "openai", apiKeys := none })).2
      { llmProvider := some "openai", apiKeys := none } rfl).1 (by decide)),
    (((C5_readConfig_failure_conditions "/home/u" (some mistralRaw)).2
      mistralRaw rfl).2 (by decide))⟩

/-! ## Claim C6 -/

/-- C6: on non-approval feedback the loop hands `reviseSchema` the current
schema and the raw feedback string unmodified (untrimmed); the revise user
instruction is a fixed template embedding the serialization of the current
schema and the literal feedback text; and the operation's value is the
validated result of its single structured-output exchange (one cursor
advance; a reply that validates to `s` is returned as `.ok s`). -/
theorem C6_revise_literal (config : Config) (schema : AbstractSchema) (fb : String)
    (t : Transport) :
    (isApproval fb = false → loopStep schema fb = .revise schema fb) ∧
    (∃ pre mid suf, ∀ (s : AbstractSchema) (r : String),
      reviseUserPrompt s r = pre ++ stringifySchema s ++ mid ++ r ++ suf) ∧
    ((reviseSchema config schema fb t).2.cursor = t.cursor + 1) ∧
    (∀ j s, t.responses t.cursor = .ok j → parseAbstractSchema j = some s →
      (reviseSchema config schema fb t).1 = .ok s) := by
  refine ⟨fun hna => ?_, ?_, ?_, fun j s hj hs => ?_⟩
  · simp [loopStep, hna]
  · exact ⟨"Here is the current database schema:\n\n```json\n",
      "\n```\n\nThe user has requested the following changes:\n\n\"",
      "\"\n\nPlease revise the schema to incorporate these changes. Return the complete revised schema with all modifications applied.",
      fun s r => rfl⟩
  · simp only [reviseSchema, generateSchemaWithPrompt, doExchange]
    rcases t.responses t.cursor with msg | reply
    · rfl
    · rcases hp : parseAbstractSchema reply with _ | s <;> simp [hp]
  · simp [reviseSchema, generateSchemaWithPrompt, doExchange, hj, hs]

/-- Witness for C6: non-approval feedback "Add a dueDate field" is passed
through literally, and a validating reply is returned as the new schema. -/
theorem C6_revise_literal_witness :
    loopStep exSchema "Add a dueDate field" = .revise exSchema "Add a dueDate field" ∧
    (reviseSchema exConfig exSchema "Add a dueDate field" (okTransport exJson)).1 =
      .ok exSchema := by
  have h := C6_revise_literal exConfig exSchema "Add a dueDate field" (okTransport exJson)
  exact ⟨h.1 (by decide), h.2.2.2 exJson exSchema rfl (by decide)⟩

/-! ## Claim C7 -/

/-- C7: a project name is accepted exactly when its trimmed value is
non-empty and consists solely of letters, digits, hyphens and underscores;
"my-app_2" is accepted, "" and "my app!" are rejected; and a rejected
input re-prompts (the collector moves on to the next input) instead of
propagating an error. -/
theorem C7_project_name :
    (∀ s, validateProjectName s = none ↔
      (jsTrim s ≠ "" ∧ (jsTrim s).data.all projectNameChar = true)) ∧
    validateProjectName "my-app_2" = none ∧
    validateProjectName "" ≠ none ∧
    validateProjectName "my app!" ≠ none ∧
    (∀ bad rest, validateProjectName bad ≠ none →
      collectProjectName (bad :: rest) = collectProjectName rest) := by
  refine ⟨fun s => ?_, by decide, by decide, by decide, fun bad rest hbad => ?_⟩
  · unfold validateProjectName
    split_ifs with h1 h2 <;> simp_all
  · simp only [collectProjectName]
    rcases hv : validateProjectName bad with _ | msg
    · exact absurd hv hbad
    · rfl

/-- Witness for C7: the rejected input "my app!" re-prompts and the next
input "my-app_2" is accepted (trimmed). -/
theorem C7_project_name_witness :
    collectProjectName ["my app!", "my-app_2"] = collectProjectName ["my-app_2"] ∧
    collectProjectName ["my-app_2"] = some "my-app_2" :=
  ⟨C7_project_name.2.2.2.2 "my app!" ["my-app_2"] (by decide), by decide⟩

/-! ## Claim C8 -/

/-- C8: for every field object the validator accepts, an omitted
`primaryKey`, `notNull` or `unique` flag comes back `false`, and omitted
`default` / `references` attributes come back absent. -/
theorem C8_field_defaults (kvs : List (String × Json)) (f : Field)
    (h : parseField (.obj kvs) = some f) :
    (lookupKey kvs "primaryKey" = none → f.primaryKey = false) ∧
    (lookupKey kvs "notNull" = none → f.notNull = false) ∧
    (lookupKey kvs "unique" = none → f.unique = false) ∧
    (lookupKey kvs "default" = none → f.default = none) ∧
    (lookupKey kvs "references" = none → f.references = none) := by
  obtain ⟨kvs', heq, _, _, hpk, hnn, huq, hdf, hrf⟩ := parseField_equiv h
  obtain rfl : kvs = kvs' := by injection heq
  refine ⟨fun h1 => ?_, fun h2 => ?_, fun h3 => ?_, fun h4 => ?_, fun h5 => ?_⟩
  · rw [hpk, h1]; rfl
  · rw [hnn, h2]; rfl
  · rw [huq, h3]; rfl
  · rw [hdf, h4]; rfl
  · rw [h5] at hrf; exact hrf

/-- A minimal field object: only `name` and `type` present. -/
def bareFieldJson : List (String × Json) :=
  [("name", .str "id"), ("type", .str "text")]

/-- Witness for C8 at a field object omitting every optional key. -/
theorem C8_field_defaults_witness :
    let f : Field := { name := "id", type := "text", primaryKey := false,
                       notNull := false, unique := false,
                       default := none, references := none }
    f.primaryKey = false ∧ f.notNull = false ∧ f.unique = false ∧
    f.default = none ∧ f.references = none := by
  intro f
  have h := C8_field_defaults bareFieldJson f (by decide)
  exact ⟨h.1 rfl, h.2.1 rfl, h.2.2.1 rfl, h.2.2.2.1 rfl, h.2.2.2.2 rfl⟩

/-! ## Claim C9 -/

/-- C9: `printSchema` tests `field.default` for truthiness, not presence —
a present-but-empty default string produces no "default: ..." annotation
(the constraints are the same as with no default at all), while a
non-empty default produces the quoted "default: '<value>'" entry. -/
theorem C9_default_truthiness (f : Field) :
    (f.default = some "" →
      fieldConstraints f = fieldConstraints { f with default := none }) ∧
    (∀ d, f.default = some d → d ≠ "" →
      ("default: '" ++ d ++ "'") ∈ fieldConstraints f) := by
  refine ⟨fun hempty => ?_, fun d hd hne => ?_⟩
  · simp [fieldConstraints, hempty]
  · simp [fieldConstraints, hd, hne]

/-- Witness for C9: an empty-string default prints no annotation; the
default "now()" prints its quoted entry. -/
theorem C9_default_truthiness_witness :
    fieldConstraints { name := "id", type := "text", primaryKey := false,
                       notNull := false, unique := false,
                       default := some "", references := none } =
      fieldConstraints { name := "id", type := "text", primaryKey := false,
                         notNull := false, unique := false,
                         default := none, references := none } ∧
    ("default: '" ++ "now()" ++ "'") ∈
      fieldConstraints { name := "created", type := "timestamp", primaryKey := false,
                         notNull := true, unique := false,
                         default := some "now()", references := none } :=
  ⟨(C9_default_truthiness _).1 rfl,
   (C9_default_truthiness _).2 "now()" rfl (by decide)⟩

/-! ## Claim C10 -/

/-- C10: the first-run wizard accepts any credential string (no
validation), persists exactly the config it returns, and for the empty
credential the selected provider maps to the empty string — from which the
adapter constructor fails with that provider's credential-missing message,
exactly as it does for an absent credential. -/
theorem C10_wizard_empty_credential :
    (∀ provider apiKey,
      (runFirstRunWizard provider apiKey).written = (runFirstRunWizard provider apiKey).returned) ∧
    ((runFirstRunWizard "gemini" "").returned.apiKeys.gemini = some "" ∧
      initializeModel (runFirstRunWizard "gemini" "").returned = .error geminiKeyMissingMsg) ∧
    ((runFirstRunWizard "openai" "").returned.apiKeys.openai = some "" ∧
      initializeModel (runFirstRunWizard "openai" "").returned = .error openaiKeyMissingMsg) ∧
    ((runFirstRunWizard "anthropic" "").returned.apiKeys.anthropic = some "" ∧
      initializeModel (runFirstRunWizard "anthropic" "").returned = .error anthropicKeyMissingMsg) :=
  ⟨fun _ _ => rfl, ⟨rfl, rfl⟩, ⟨rfl, rfl⟩, ⟨rfl, rfl⟩⟩

end Boilr
